import Mathlib

/-!
Shallow embedding of the console capture/detect engine of
`tcfl/target_ext_console.py` (class `expect_text_on_console_c`, the console
`extension`, and the continuous reader `_console_reader_c`).

Bytes are modelled as `Nat` (values < 256 in practice), byte buffers as
`List Nat`, and the mutable `buffers_poll` dictionary as an explicit
`PollBuffers` record threaded through the functions.  Network reads are
modelled by explicit response functions passed to `poll`; a `none` response
models `requests.exceptions.ReadTimeout`.
-/

namespace TcfConsole

/-! ## Bytes and UTF-8 encoding

`expect_text_on_console_c.regex_set` encodes `str` patterns with
`.encode('utf-8')` before compiling; we model UTF-8 encoding explicitly. -/

/-- UTF-8 encoding of a single Unicode code point, as its list of bytes. -/
def charUtf8 (n : Nat) : List Nat :=
  if n < 0x80 then [n]
  else if n < 0x800 then [0xC0 + n / 64, 0x80 + n % 64]
  else if n < 0x10000 then
    [0xE0 + n / 4096, 0x80 + (n / 64) % 64, 0x80 + n % 64]
  else
    [0xF0 + n / 262144, 0x80 + (n / 4096) % 64, 0x80 + (n / 64) % 64,
     0x80 + n % 64]

/-- UTF-8 encoding of a string (Python's `s.encode('utf-8')`). -/
def utf8Encode (s : String) : List Nat :=
  (s.data.map (fun c => charUtf8 c.toNat)).flatten

/-! ## Byte regular expressions

The engine compiles patterns with Python's `re` module and searches bytes.
The claims only exercise literal bytes and the single-byte wildcard, so the
regex language is modelled by token sequences where each token consumes
exactly one byte: a literal byte or `.` (any byte).  `re.escape` /
`re.compile` are modelled as source-to-source escaping and parsing of this
language, and `regex.search` as leftmost search. -/

/-- One regex token: a literal byte, or `.` (matches any single byte). -/
inductive RTok
  | lit (c : Nat)
  | any
deriving DecidableEq, Repr

/-- A compiled byte regex: a sequence of single-byte tokens. -/
abbrev Regex := List RTok

/-- Does a token match one byte? -/
def tokMatches : RTok → Nat → Bool
  | .lit c, b => c == b
  | .any, _ => true

/-- Does the token sequence match at the head of the buffer? -/
def matchesAt : Regex → List Nat → Bool
  | [], _ => true
  | _ :: _, [] => false
  | t :: ts, b :: bs => tokMatches t b && matchesAt ts bs

/-- Leftmost search from running index `i`; returns `(start, end)` of the
first match (Python `regex.search` on the tail). -/
def rsearchAux (toks : Regex) : List Nat → Nat → Option (Nat × Nat)
  | [], i => if matchesAt toks [] then some (i, i + toks.length) else none
  | b :: bs, i =>
    if matchesAt toks (b :: bs) then some (i, i + toks.length)
    else rsearchAux toks bs (i + 1)

/-- `regex.search(buf)`: leftmost match as `(match.start(), match.end())`. -/
def rsearch (toks : Regex) (buf : List Nat) : Option (Nat × Nat) :=
  rsearchAux toks buf 0

/-- The bytes Python's `re.escape` prefixes with a backslash
(`()[]\x7b\x7d?*+-|^$\.&~# \t\n\r\v\f`). -/
def reSpecial (c : Nat) : Bool :=
  c ∈ [40, 41, 91, 93, 123, 125, 63, 42, 43, 45, 124, 94, 36, 92, 46,
       38, 126, 35, 32, 9, 10, 13, 11, 12]

/-- `re.escape` over bytes: backslash-escape every special byte. -/
def reEscape : List Nat → List Nat
  | [] => []
  | c :: tl =>
    if reSpecial c then 92 :: c :: reEscape tl else c :: reEscape tl

/-- `re.compile` over byte pattern source: `\c` is the literal byte `c`,
`.` is the wildcard, anything else is a literal. -/
def parseRegex : List Nat → Regex
  | [] => []
  | c :: tl =>
    if c = 92 then
      match tl with
      | [] => []
      | c2 :: tl2 => RTok.lit c2 :: parseRegex tl2
    else if c = 46 then RTok.any :: parseRegex tl
    else RTok.lit c :: parseRegex tl

/-! ## Pattern input and `regex_set`

`expect_text_on_console_c.regex_set` accepts `str`, `bytes` and compiled
patterns (with `str` or `bytes` source); anything else raises
`AssertionError` (and `__init__` also asserts the type up front). -/

/-- The runtime type of the `text_or_regex` argument.  `other` stands for
any value that is neither `str`, `bytes` nor a compiled `typing.Pattern`. -/
inductive TextOrRegex
  | str (s : String)
  | bytes (b : List Nat)
  | compiledStr (pattern : String)
  | compiledBytes (pattern : List Nat)
  | other
deriving DecidableEq, Repr

/-- `expect_text_on_console_c.regex_set` (target_ext_console.py:185-212):
`str` is UTF-8 encoded, escaped and compiled; `bytes` is escaped and
compiled; a compiled pattern with `str` source is re-compiled from its
UTF-8 encoded source; a compiled pattern with `bytes` source is kept;
anything else raises `AssertionError`. -/
def regex_set : TextOrRegex → Except String Regex
  | .str s => .ok (parseRegex (reEscape (utf8Encode s)))
  | .bytes b => .ok (parseRegex (reEscape b))
  | .compiledStr p => .ok (parseRegex (utf8Encode p))
  | .compiledBytes p => .ok (parseRegex p)
  | .other => .error "text_or_regex must be a string or compiled regex"

/-! ## Poll state

`buffers_poll` is a Python dict holding `read_offset`, `generation`, the
open capture file `of`, and per-detect-context keys
`CTX + 'search_offset'` / `CTX + 'search_offset_prev'`.  We model it as a
record; the capture file's contents are the `capture` byte list and the
presence of the open handle `'of'` is the `of_present` flag.  The
per-context keys become association lists keyed by context name. -/

/-- Association-list lookup (dict read `buffers_poll[ctx + '...']`). -/
def alGet (l : List (String × Nat)) (k : String) : Option Nat :=
  (l.find? (fun p => p.1 == k)).map Prod.snd

/-- Association-list update (dict write `buffers_poll[ctx + '...'] = v`). -/
def alSet (l : List (String × Nat)) (k : String) (v : Nat) :
    List (String × Nat) :=
  (k, v) :: l.filter (fun p => p.1 != k)

/-- The `buffers_poll` dictionary of one poll context. -/
structure PollBuffers where
  /-- `buffers_poll['read_offset']` (0 when the key is absent). -/
  read_offset : Nat
  /-- `buffers_poll['generation']`; `none` before the first read. -/
  generation : Option Nat
  /-- whether `'of'` is in `buffers_poll` (capture file open). -/
  of_present : Bool
  /-- contents of the local capture file `of`. -/
  capture : List Nat
  /-- `buffers_poll[ctx + 'search_offset']` for each detect context. -/
  search_offsets : List (String × Nat)
  /-- `buffers_poll[ctx + 'search_offset_prev']` for each detect context. -/
  search_offsets_prev : List (String × Nat)
deriving DecidableEq, Repr

/-- A `buffers_poll` dict before `_poll_context_init` ran (no keys). -/
def emptyBuffers : PollBuffers :=
  { read_offset := 0, generation := none, of_present := false,
    capture := [], search_offsets := [], search_offsets_prev := [] }

/-- The `read_offset` computation of
`expect_text_on_console_c._poll_context_init` (target_ext_console.py:269-274):
`read_offset = size(console)` (`0` when the console is disabled and `size`
returns `None`), minus `lookback_max`, clamped at `0`.  Computed in `Int` as
Python does, then clamped. -/
def poll_context_init_offset (size : Option Nat) (lookback_max : Nat) : Int :=
  let read_offset : Int :=
    match size with
    | none => 0
    | some n => (n : Int)
  let read_offset := read_offset - (lookback_max : Int)
  if read_offset < 0 then 0 else read_offset

/-- `expect_text_on_console_c._poll_context_init`
(target_ext_console.py:238-277): remove any stale capture file and open a
fresh one in `"ba+"` mode (modelled as an empty `capture` with the handle
present), then compute the initial `read_offset`.  `size` is the transport's
`target.console.size(console)` response. -/
def poll_context_init (size : Option Nat) (lookback_max : Nat) : PollBuffers :=
  { read_offset := (poll_context_init_offset size lookback_max).toNat,
    generation := none, of_present := true, capture := [],
    search_offsets := [], search_offsets_prev := [] }

/-! ## Transport and `_poll` -/

/-- The successful result of one `target.console.read_full` call:
`(generation, new_offset, bytes read)`; the bytes are appended to the
capture file by `read_full` itself. -/
structure ReadResult where
  gen : Nat
  newOffset : Nat
  data : List Nat
deriving DecidableEq, Repr

/-- A snapshot of the remote console stream: its generation and full
contents for that generation. -/
structure Remote where
  gen : Nat
  content : List Nat
deriving DecidableEq, Repr

/-- Semantics of the server's `read(console, offset, maxBytes)` against a
remote snapshot: the returned bytes are the stream contents from `offset`
(at most `maxBytes` of them) and the returned offset is where the next read
should continue. -/
def remoteRead (r : Remote) (offset maxBytes : Nat) : ReadResult :=
  let data := (r.content.drop offset).take maxBytes
  { gen := r.gen, newOffset := offset + data.length, data := data }

/-- `expect_text_on_console_c.max_size` (target_ext_console.py:232). -/
def max_size : Nat := 65536

/-- Errors `_poll` can propagate: an exhausted-retry
`requests.exceptions.ReadTimeout`. -/
inductive PollError
  | readTimeout
deriving DecidableEq, Repr

/-- The retry loop of `_poll` (target_ext_console.py:324-343):
`retry_count` starts at `-1` and the loop runs `while retry_count < 3`, so
up to four `read_full` attempts are made; the first success breaks out, and
if all fail the last `ReadTimeout` is re-raised (the `while`'s `else`).
`reads k` is the outcome of the `k`-th `read_full` invocation (`none` for a
`ReadTimeout`); returns the successful result and the number of invocations
consumed. -/
def retryReadAux (reads : Nat → Option ReadResult) :
    Nat → Nat → Option (ReadResult × Nat)
  | _, 0 => none
  | k, fuel + 1 =>
    match reads k with
    | some r => some (r, k + 1)
    | none => retryReadAux reads (k + 1) fuel

/-- Four attempts (`retry_count` values `0`, `1`, `2`, `3`). -/
def retryRead (reads : Nat → Option ReadResult) : Option (ReadResult × Nat) :=
  retryReadAux reads 0 4

/-- `expect_text_on_console_c._poll` (target_ext_console.py:297-378), the
part after the capture file is set up.  `reads k offset maxBytes` is the
outcome of the `k`-th `read_full` invocation of this call, requesting from
`offset`.  The first read (with retries) requests from `read_offset`; its
bytes are appended to the capture file by `read_full`.  Then the returned
generation is compared with the stored one: first read ever stores it; a
strictly greater one re-issues the read from offset `0` (appending those
bytes too) and stores the new generation; finally `read_offset` is set to
the `new_offset` of the last read performed. -/
def poll_inner (bp : PollBuffers)
    (reads : Nat → Nat → Nat → Option ReadResult) :
    Except PollError PollBuffers :=
  match retryRead (fun k => reads k bp.read_offset max_size) with
  | none => .error .readTimeout
  | some (r, used) =>
    match bp.generation with
    | none =>
      .ok { bp with capture := bp.capture ++ r.data,
                    generation := some r.gen,
                    read_offset := r.newOffset }
    | some generation_prev =>
      if generation_prev < r.gen then
        -- console restarted: re-read from offset zero (not retried)
        match reads used 0 max_size with
        | none => .error .readTimeout
        | some r2 =>
          .ok { bp with capture := bp.capture ++ r.data ++ r2.data,
                        generation := some r2.gen,
                        read_offset := r2.newOffset }
      else
        .ok { bp with capture := bp.capture ++ r.data,
                      read_offset := r.newOffset }

/-- `expect_text_on_console_c.poll` (target_ext_console.py:380-405): if the
capture context is not initialized yet (`'of'` not in `buffers_poll`), run
`_poll_context_init` with the expectation's `previous_max` lookback, then
`_poll`. -/
def poll (bp : PollBuffers) (size : Option Nat) (previous_max : Nat)
    (reads : Nat → Nat → Nat → Option ReadResult) :
    Except PollError PollBuffers :=
  let bp := if bp.of_present then bp else poll_context_init size previous_max
  poll_inner bp reads

/-! ## Detector -/

/-- The runtime value of the expectation's `report` attribute: an `int`
(`0` means "no output attached"), `None`, or any other value (on which
`detect` raises `AssertionError`). -/
inductive ReportPolicy
  | int (n : Int)
  | noneP
  | other
deriving DecidableEq, Repr

/-- Errors `detect` can raise: the `AssertionError` on an invalid
`self.report` (target_ext_console.py:532-534).  There is no
malformed-pattern error at detect time. -/
inductive DetectError
  | invalidReportPolicy
deriving DecidableEq, Repr

/-- The fields of the match dictionary built by `detect`
(target_ext_console.py:536-563) that the claims are about; `console_output`
is the `(offset_from, offset_to)` window handed to
`target.console.generator_factory`, `none` when no output is attached
(`report == 0`). -/
structure MatchData where
  offset : Nat
  offset_match_start : Nat
  offset_match_end : Nat
  console_output : Option (Nat × Nat)
deriving DecidableEq, Repr

/-- Resolution of the detect context name (target_ext_console.py:478-481):
an empty `detect_context` defaults to the console name. -/
def resolve_context (detect_context console : String) : String :=
  if detect_context = "" then console else detect_context

/-- target_ext_console.py:486-487: if `ctx + 'search_offset'` is not yet a
key of `buffers_poll`, store `0` under it. -/
def ensure_context (bp : PollBuffers) (ctx : String) : PollBuffers :=
  if (alGet bp.search_offsets ctx).isNone then
    { bp with search_offsets := alSet bp.search_offsets ctx 0 }
  else bp

/-- The report-policy branch of `detect` (target_ext_console.py:523-534):
given the (local variable) `search_offset` and the relative `match.end()`,
return the possibly rewound local `search_offset` and whether console
output is attached; `none` models the `AssertionError` on an invalid
`self.report`.  For an `int` report `N` the code rebinds the local
`search_offset = max(search_offset, search_offset + match.end() - N)`. -/
def reportBranch (report : ReportPolicy) (search_offset me : Nat) :
    Option (Nat × Bool) :=
  match report with
  | .int n =>
    if n = 0 then some (search_offset, false)
    else
      some ((max (search_offset : Int)
                 ((search_offset : Int) + (me : Int) - n)).toNat, true)
  | .noneP => some (search_offset, true)
  | .other => none

/-- The match branch of `detect` (target_ext_console.py:507-563): store
`search_offset_prev` and advance the stored `search_offset` by
`match.end()`, then build the match record from the (possibly rewound)
local `search_offset`. -/
def detectMatch (report : ReportPolicy) (ctx : String) (bp1 : PollBuffers)
    (s ms me : Nat) : Except DetectError (Option MatchData × PollBuffers) :=
  let bp2 := { bp1 with
    search_offsets_prev := alSet bp1.search_offsets_prev ctx s,
    search_offsets := alSet bp1.search_offsets ctx (s + me) }
  match reportBranch report s me with
  | none => .error .invalidReportPolicy
  | some (s', attach) =>
    .ok (some { offset := s',
                offset_match_start := s' + ms,
                offset_match_end := s' + me,
                console_output :=
                  if attach then some (s', s' + me) else none },
         bp2)

/-- The body of `detect` once the capture file exists and is non-empty:
resolve the search offset of the context and run the regex over the
memory-mapped capture from that offset (`mapping[search_offset:]`). -/
def detectGo (regex : Regex) (report : ReportPolicy) (ctx : String)
    (bp : PollBuffers) : Except DetectError (Option MatchData × PollBuffers) :=
  let bp1 := ensure_context bp ctx
  let s := (alGet bp1.search_offsets ctx).getD 0
  match rsearch regex (bp1.capture.drop s) with
  | none => .ok (none, bp1)
  | some (ms, me) => detectMatch report ctx bp1 s ms me

/-- `expect_text_on_console_c.detect` (target_ext_console.py:407-564): no
capture context yet (`'of'` absent) or an empty capture file yield "no
match" without touching the state. -/
def detect (regex : Regex) (report : ReportPolicy)
    (detect_context console : String) (bp : PollBuffers) :
    Except DetectError (Option MatchData × PollBuffers) :=
  if bp.of_present = false then .ok (none, bp)
  else if bp.capture.length = 0 then .ok (none, bp)
  else detectGo regex report (resolve_context detect_context console) bp

/-! ## Expectation construction -/

/-- The expectation fields relevant to the claims. -/
structure Expectation where
  regex : Regex
  console : Option String
  detect_context : String
  previous_max : Nat
  report : ReportPolicy
deriving Repr

/-- `expect_text_on_console_c.__init__` (target_ext_console.py:147-183):
asserts `previous_max > 0`, validates and compiles the pattern via
`regex_set` (a non-`str`/`bytes`/`Pattern` argument raises), and stores the
policy fields. -/
def expectationInit (text_or_regex : TextOrRegex) (console : Option String)
    (previous_max : Nat) (detect_context : String) (report : ReportPolicy) :
    Except String Expectation :=
  if previous_max = 0 then .error "assert previous_max > 0" else
  match regex_set text_or_regex with
  | .error e => .error e
  | .ok rx =>
    .ok { regex := rx, console := console, detect_context := detect_context,
          previous_max := previous_max, report := report }

/-! ## Continuous reader (`_console_reader_c`) -/

/-- The mutable state of `_console_reader_c`
(target_ext_console.py:1486-1499). -/
structure ConsoleReader where
  offset : Nat
  server_connection_errors : Nat
  server_connection_errors_max : Nat
  backoff_wait : ℚ
  backoff_wait_max : ℚ
  generation_prev : Option Nat
deriving DecidableEq, Repr

/-- `_console_read_thread_fn` (target_ext_console.py:1569-1578) builds the
reader with a consecutive-connection-error budget of `10` and
`_console_reader_c.__init__` starts the backoff at `0.1`. -/
def console_reader_make (offset : Nat) (backoff_wait_max : ℚ) :
    ConsoleReader :=
  { offset := offset, server_connection_errors := 0,
    server_connection_errors_max := 10, backoff_wait := 1/10,
    backoff_wait_max := backoff_wait_max, generation_prev := none }

/-- One iteration's interaction with the transport: `read_full` succeeded
with `(generation, new_offset, data)`, or raised
`requests.exceptions.ConnectionError`. -/
inductive ReadEvent
  | ok (generation newOffset : Nat) (data : List Nat)
  | connError
deriving Repr

/-- Result of one `_console_reader_c.read` call: a normal return with the
new state, the `data_len` returned and the backoff slept; a retry after a
tolerated connection error (state updated, backoff slept); or a fatal
re-raise (`flagsRestored` records whether the terminal flags passed as
`flags_restore` were restored before re-raising). -/
inductive ReaderResult
  | ok (st : ConsoleReader) (data_len : Nat) (slept : ℚ)
  | retry (st : ConsoleReader) (slept : ℚ)
  | fatal (flagsRestored : Bool)
deriving DecidableEq, Repr

/-- `_console_reader_c.read` (target_ext_console.py:1501-1566).  On
success: store the new offset (reset to `len(data)` on a generation
change), double the backoff when no data arrived or reset it to `0.1` when
data did, cap it at `backoff_wait_max`, sleep it, and clear the
consecutive-error counter if it was non-zero.  On a connection error:
increment the counter; if it reached `server_connection_errors_max`,
restore the terminal flags (when given) and re-raise; otherwise sleep the
current backoff, then double and cap it. -/
def console_reader_read (st : ConsoleReader) (flags_restore : Bool) :
    ReadEvent → ReaderResult
  | .ok generation newOffset data =>
    let st := { st with offset := newOffset }
    let st :=
      if st.generation_prev ≠ none ∧ st.generation_prev ≠ some generation
      then { st with offset := data.length } else st
    let st := { st with generation_prev := some generation }
    let data_len := data.length
    let st :=
      if data_len = 0 then { st with backoff_wait := st.backoff_wait * 2 }
      else { st with backoff_wait := 1/10 }
    let st :=
      if st.backoff_wait ≥ st.backoff_wait_max
      then { st with backoff_wait := st.backoff_wait_max } else st
    let slept := st.backoff_wait
    let st :=
      if st.server_connection_errors > 0
      then { st with server_connection_errors := 0, backoff_wait := 1/10 }
      else st
    .ok st data_len slept
  | .connError =>
    let st := { st with
      server_connection_errors := st.server_connection_errors + 1 }
    if st.server_connection_errors ≥ st.server_connection_errors_max then
      .fatal flags_restore
    else
      let slept := st.backoff_wait
      let st := { st with backoff_wait := st.backoff_wait * 2 }
      let st :=
        if st.backoff_wait ≥ st.backoff_wait_max
        then { st with backoff_wait := st.backoff_wait_max } else st
      .retry st slept

/-! ## Console `write` -/

/-- The runtime type of `extension.write`'s `data` argument. -/
inductive WriteData
  | str (s : String)
  | bytes (b : List Nat)
  | other
deriving Repr

/-- Errors `extension.write` raises before reaching the transport. -/
inductive WriteError
  | assertionError
  | attributeError
deriving DecidableEq, Repr

/-- Python attribute semantics of `data.encode('utf-8')`: only `str` has
an `encode` method; calling it on `bytes` raises `AttributeError`. -/
def pyEncodeUtf8 : WriteData → Except WriteError WriteData
  | .str s => .ok (.bytes (utf8Encode s))
  | _ => .error .attributeError

/-- `extension.write` (target_ext_console.py:1162-1237), up to the point
where the data reaches `ttbd_iface_call("console", "write", ...)`:
`assert isinstance(data, (str, bytes))`, then
`if isinstance(data, bytes): data = data.encode('utf-8')`.  Returns the
`data` value handed to the transport (the unchunked path). -/
def console_write (data : WriteData) : Except WriteError WriteData :=
  match data with
  | .other => .error .assertionError
  | .bytes b => do
    let data ← pyEncodeUtf8 (.bytes b)
    .ok data
  | .str s => .ok (.str s)

/-! ## Concrete scenarios

Scenario A/B of the spec run against a small remote stream; these are used
by witnesses and counterexamples below. -/

/-- A console name for the concrete scenarios. -/
def console0 : String := "console0"

/-- The compiled pattern of `text("login:")`. -/
def loginRegex : Regex := (regex_set (.str "login:")).toOption.getD []

/-- Respond to every read (any attempt index) from the given remote
snapshot. -/
def remote_reads (rm : Remote) : Nat → Nat → Nat → Option ReadResult :=
  fun _ offset maxBytes => some (remoteRead rm offset maxBytes)

/-- Scenario A remote: generation 1, body `"boot\nlogin: "`. -/
def scenA_remote : Remote := { gen := 1, content := utf8Encode "boot\nlogin: " }

/-- Scenario B remote: generation 2 (reset), fresh body `"boot\n"`. -/
def scenB_remote : Remote := { gen := 2, content := utf8Encode "boot\n" }

/-- Scenario A poll: first `poll` from a fresh context (lookback 4096). -/
def scenA_bp1 : PollBuffers :=
  (poll emptyBuffers (some 0) 4096 (remote_reads scenA_remote)).toOption.getD
    emptyBuffers

/-- Scenario A detect of `"login:"` (default detect context, full report). -/
def scenA_detect : Except DetectError (Option MatchData × PollBuffers) :=
  detect loginRegex .noneP "" console0 scenA_bp1

/-- State after Scenario A's detect. -/
def scenA_bp2 : PollBuffers :=
  (scenA_detect.toOption.map Prod.snd).getD emptyBuffers

/-- Scenario A's match record. -/
def scenA_md : MatchData :=
  ((scenA_detect.toOption.map Prod.fst).getD none).getD
    { offset := 0, offset_match_start := 0, offset_match_end := 0,
      console_output := none }

/-- Scenario B poll: the remote was reset to generation 2. -/
def scenB_bp3 : PollBuffers :=
  (poll scenA_bp2 (some 0) 4096 (remote_reads scenB_remote)).toOption.getD
    emptyBuffers

/-- Scenario B detect of `"login:"` again. -/
def scenB_detect : Except DetectError (Option MatchData × PollBuffers) :=
  detect loginRegex .noneP "" console0 scenB_bp3

/-- Scenario B's state after detect (unchanged: no match). -/
def scenB_bp4 : PollBuffers :=
  (scenB_detect.toOption.map Prod.snd).getD emptyBuffers

/-- A default match record for total extraction of detect results. -/
def mdDefault : MatchData :=
  { offset := 0, offset_match_start := 0, offset_match_end := 0,
    console_output := none }

/-- Double-detect input: capture `[97, 98, 97]` ("aba"). -/
def c1_bp : PollBuffers :=
  { read_offset := 3, generation := some 1, of_present := true,
    capture := [97, 98, 97], search_offsets := [], search_offsets_prev := [] }

/-- The compiled pattern of `text("a")`. -/
def c1_regex : Regex := (regex_set (.str "a")).toOption.getD []

/-- First detect over `c1_bp`. -/
def c1_detect : Except DetectError (Option MatchData × PollBuffers) :=
  detect c1_regex .noneP "" console0 c1_bp

/-- Match record of the first detect over `c1_bp`. -/
def c1_md : MatchData :=
  ((c1_detect.toOption.map Prod.fst).getD none).getD mdDefault

/-- State after the first detect over `c1_bp`. -/
def c1_bp2 : PollBuffers :=
  (c1_detect.toOption.map Prod.snd).getD emptyBuffers

/-- Report-policy input: a 50-byte capture (44 × `'a'` then `"login:"`),
so the match is the byte range `[44, 50)`. -/
def bp50 : PollBuffers :=
  { read_offset := 50, generation := some 1, of_present := true,
    capture := List.replicate 44 97 ++ utf8Encode "login:",
    search_offsets := [], search_offsets_prev := [] }

/-- Detect over `bp50` with `report = 5`. -/
def bp50_detect : Except DetectError (Option MatchData × PollBuffers) :=
  detect loginRegex (.int 5) "" console0 bp50

/-- Pre-reset remote for the stale-match run: generation 1, `"login: "`. -/
def c2x_remote1 : Remote := { gen := 1, content := utf8Encode "login: " }

/-- Post-reset remote for the stale-match run: generation 2, `"x"` (the
pattern `"login:"` does not occur in the new generation's stream). -/
def c2x_remote2 : Remote := { gen := 2, content := utf8Encode "x" }

/-- First poll of the stale-match run (no detect happens before the
reset, so the context's search offset stays at its default). -/
def c2x_bp1 : PollBuffers :=
  (poll emptyBuffers (some 0) 4096 (remote_reads c2x_remote1)).toOption.getD
    emptyBuffers

/-- Second poll of the stale-match run: the remote has reset. -/
def c2x_bp2 : PollBuffers :=
  (poll c2x_bp1 (some 0) 4096 (remote_reads c2x_remote2)).toOption.getD
    emptyBuffers

/-- Detect of `"login:"` after the reset in the stale-match run. -/
def c2x_detect : Except DetectError (Option MatchData × PollBuffers) :=
  detect loginRegex .noneP "" console0 c2x_bp2

/-- Retry-budget input state. -/
def c3_bp : PollBuffers :=
  { read_offset := 2, generation := some 1, of_present := true,
    capture := [5], search_offsets := [], search_offsets_prev := [] }

/-- Retry-budget transport: the first three `read_full` invocations raise
`ReadTimeout`, the fourth succeeds. -/
def c3_reads : Nat → Nat → Nat → Option ReadResult :=
  fun k offset _ =>
    if k < 3 then none
    else some { gen := 1, newOffset := offset + 1, data := [7] }

/-- A reader one connection error short of the budget. -/
def c7_state : ConsoleReader :=
  { offset := 0, server_connection_errors := 9,
    server_connection_errors_max := 10, backoff_wait := 1/10,
    backoff_wait_max := 2, generation_prev := none }

/-- A reader well within the budget. -/
def c7_retry : ConsoleReader :=
  { offset := 0, server_connection_errors := 3,
    server_connection_errors_max := 10, backoff_wait := 1/10,
    backoff_wait_max := 2, generation_prev := none }

/-! ## Helper lemmas -/

theorem alGet_alSet_self (l : List (String × Nat)) (k : String) (v : Nat) :
    alGet (alSet l k v) k = some v := by
  simp [alGet, alSet]

theorem ensure_context_get (bp : PollBuffers) (ctx : String) :
    alGet (ensure_context bp ctx).search_offsets ctx =
      some ((alGet bp.search_offsets ctx).getD 0) := by
  unfold ensure_context
  cases h : alGet bp.search_offsets ctx with
  | none => simp [h, alGet_alSet_self]
  | some v => simp [h]

theorem ensure_context_fields (bp : PollBuffers) (ctx : String) :
    (ensure_context bp ctx).capture = bp.capture ∧
    (ensure_context bp ctx).of_present = bp.of_present ∧
    (ensure_context bp ctx).read_offset = bp.read_offset ∧
    (ensure_context bp ctx).generation = bp.generation ∧
    (ensure_context bp ctx).search_offsets_prev = bp.search_offsets_prev := by
  unfold ensure_context
  split <;> exact ⟨rfl, rfl, rfl, rfl, rfl⟩

theorem reportBranch_ge (report : ReportPolicy) (s me s' : Nat) (attach : Bool)
    (h : reportBranch report s me = some (s', attach)) : s ≤ s' := by
  cases report with
  | int n =>
    by_cases hn : n = 0
    · simp [reportBranch, hn] at h
      omega
    · simp [reportBranch, hn] at h
      have hle : (s : Int) ≤ max (s : Int) ((s : Int) + (me : Int) - n) :=
        le_max_left _ _
      have := Int.toNat_le_toNat hle
      simpa [h.1] using this
  | noneP => simp [reportBranch] at h; omega
  | other => simp [reportBranch] at h

theorem retryReadAux_some (reads : Nat → Option ReadResult) :
    ∀ (fuel k : Nat) (r : ReadResult) (used : Nat),
      retryReadAux reads k fuel = some (r, used) →
      reads (used - 1) = some r ∧ k < used := by
  intro fuel
  induction fuel with
  | zero => intro k r used h; simp [retryReadAux] at h
  | succ fuel ih =>
    intro k r used h
    unfold retryReadAux at h
    cases hk : reads k with
    | some r' =>
      rw [hk] at h
      injection h with h'
      injection h' with h1 h2
      subst h1; subst h2
      simpa using hk
    | none =>
      rw [hk] at h
      have := ih (k + 1) r used h
      exact ⟨this.1, by omega⟩

theorem rsearchAux_some (toks : Regex) :
    ∀ (l : List Nat) (i0 i j : Nat),
      rsearchAux toks l i0 = some (i, j) →
      i0 ≤ i ∧ j = i + toks.length ∧
      matchesAt toks (l.drop (i - i0)) = true ∧
      ∀ d, d < i - i0 → matchesAt toks (l.drop d) = false := by
  intro l
  induction l with
  | nil =>
    intro i0 i j h
    unfold rsearchAux at h
    split at h
    · injection h with h'
      injection h' with h1 h2
      subst h1; subst h2
      refine ⟨le_refl _, rfl, by simpa using ‹matchesAt toks [] = true›, ?_⟩
      intro d hd; omega
    · exact absurd h (by simp)
  | cons b bs ih =>
    intro i0 i j h
    unfold rsearchAux at h
    split at h
    · injection h with h'
      injection h' with h1 h2
      subst h1; subst h2
      refine ⟨le_refl _, rfl, ?_, ?_⟩
      · simpa using ‹matchesAt toks (b :: bs) = true›
      · intro d hd; omega
    · rename_i hfalse
      obtain ⟨hk, hj, hmatch, hmin⟩ := ih (i0 + 1) i j h
      refine ⟨by omega, hj, ?_, ?_⟩
      · have : i - i0 = (i - (i0 + 1)) + 1 := by omega
        rw [this]
        simpa using hmatch
      · intro d hd
        cases d with
        | zero => simpa using Bool.eq_false_iff.mpr hfalse
        | succ d' =>
          have : (b :: bs).drop (d' + 1) = bs.drop d' := rfl
          rw [this]
          exact hmin d' (by omega)

theorem rsearchAux_none (toks : Regex) :
    ∀ (l : List Nat) (i0 : Nat),
      rsearchAux toks l i0 = none →
      ∀ d, matchesAt toks (l.drop d) = false := by
  intro l
  induction l with
  | nil =>
    intro i0 h d
    unfold rsearchAux at h
    split at h
    · exact absurd h (by simp)
    · simpa using Bool.eq_false_iff.mpr ‹¬ matchesAt toks [] = true›
  | cons b bs ih =>
    intro i0 h d
    unfold rsearchAux at h
    split at h
    · exact absurd h (by simp)
    · rename_i hfalse
      cases d with
      | zero => simpa using Bool.eq_false_iff.mpr hfalse
      | succ d' => exact ih (i0 + 1) h d'

theorem matchesAt_lit (p : List Nat) :
    ∀ l : List Nat,
      (matchesAt (p.map RTok.lit) l = true ↔ l.take p.length = p) := by
  induction p with
  | nil => intro l; simp [matchesAt]
  | cons c p ih =>
    intro l
    cases l with
    | nil => simp [matchesAt]
    | cons b bs =>
      simp only [List.map_cons, matchesAt, tokMatches, List.length_cons,
                 List.take_succ_cons, Bool.and_eq_true, beq_iff_eq, ih bs,
                 List.cons.injEq]
      constructor
      · rintro ⟨h1, h2⟩; exact ⟨h1.symm, h2⟩
      · rintro ⟨h1, h2⟩; exact ⟨h1.symm, h2⟩

theorem parseRegex_cons_lit (c : Nat) (tl : List Nat)
    (h92 : c ≠ 92) (h46 : c ≠ 46) :
    parseRegex (c :: tl) = .lit c :: parseRegex tl := by
  unfold parseRegex
  simp only [h92, h46, if_false]
  exact congrArg (RTok.lit c :: ·) (parseRegex.eq_def tl)

theorem parseRegex_escaped (c : Nat) (tl : List Nat) :
    parseRegex (92 :: c :: tl) = .lit c :: parseRegex tl := rfl

theorem parseRegex_reEscape (b : List Nat) :
    parseRegex (reEscape b) = b.map RTok.lit := by
  induction b with
  | nil => rfl
  | cons c tl ih =>
    by_cases hc : reSpecial c = true
    · simp only [reEscape, hc, if_pos, parseRegex_escaped, ih, List.map_cons]
    · have h92 : c ≠ 92 := by
        rintro rfl; simp [reSpecial] at hc
      have h46 : c ≠ 46 := by
        rintro rfl; simp [reSpecial] at hc
      simp only [reEscape, hc, Bool.false_eq_true, if_false,
                 parseRegex_cons_lit c _ h92 h46, ih, List.map_cons]

/-- Inversion of a successful match of `detect`: the regex matched the
capture from the context's search offset, the match record is built from
the (possibly rewound) report-policy offset, and the stored cursors were
advanced while everything else was left unchanged. -/
theorem detect_ok_some (regex : Regex) (report : ReportPolicy)
    (dc console : String) (bp bp' : PollBuffers) (md : MatchData)
    (h : detect regex report dc console bp = .ok (some md, bp')) :
    ∃ ms me s' attach,
      rsearch regex (bp.capture.drop
          ((alGet bp.search_offsets (resolve_context dc console)).getD 0)) =
        some (ms, me) ∧
      reportBranch report
          ((alGet bp.search_offsets (resolve_context dc console)).getD 0) me =
        some (s', attach) ∧
      md = { offset := s', offset_match_start := s' + ms,
             offset_match_end := s' + me,
             console_output := if attach then some (s', s' + me) else none } ∧
      bp'.capture = bp.capture ∧
      bp'.of_present = bp.of_present ∧
      bp'.read_offset = bp.read_offset ∧
      bp'.generation = bp.generation ∧
      alGet bp'.search_offsets (resolve_context dc console) =
        some (((alGet bp.search_offsets (resolve_context dc console)).getD 0)
              + me) ∧
      alGet bp'.search_offsets_prev (resolve_context dc console) =
        some ((alGet bp.search_offsets (resolve_context dc console)).getD 0) := by
  unfold detect at h
  by_cases hof : bp.of_present = false
  · rw [if_pos hof] at h
    simp at h
  rw [if_neg hof] at h
  by_cases hlen : bp.capture.length = 0
  · rw [if_pos hlen] at h
    simp at h
  rw [if_neg hlen] at h
  unfold detectGo at h
  obtain ⟨hcap, hofp, hro, hgen, hprev⟩ :=
    ensure_context_fields bp (resolve_context dc console)
  simp only [ensure_context_get, Option.getD_some, hcap] at h
  cases hr : rsearch regex (bp.capture.drop
      ((alGet bp.search_offsets (resolve_context dc console)).getD 0)) with
  | none => rw [hr] at h; simp at h
  | some p =>
    obtain ⟨ms, me⟩ := p
    rw [hr] at h
    replace h : detectMatch report (resolve_context dc console)
        (ensure_context bp (resolve_context dc console))
        ((alGet bp.search_offsets (resolve_context dc console)).getD 0) ms me
        = .ok (some md, bp') := h
    unfold detectMatch at h
    cases hrb : reportBranch report
        ((alGet bp.search_offsets (resolve_context dc console)).getD 0) me with
    | none => rw [hrb] at h; simp at h
    | some q =>
      obtain ⟨s', attach⟩ := q
      rw [hrb] at h
      simp only [Except.ok.injEq, Prod.mk.injEq, Option.some.injEq] at h
      obtain ⟨hmd, hbp'⟩ := h
      refine ⟨ms, me, s', attach, rfl, hrb, hmd.symm, ?_, ?_, ?_, ?_, ?_, ?_⟩
      · rw [← hbp']; exact hcap
      · rw [← hbp']; exact hofp
      · rw [← hbp']; exact hro
      · rw [← hbp']; exact hgen
      · rw [← hbp']; exact alGet_alSet_self _ _ _
      · rw [← hbp']; exact alGet_alSet_self _ _ _

/-- `retryRead` unrolled: four attempts, first success wins. -/
theorem retryRead_unfold (reads : Nat → Option ReadResult) :
    retryRead reads =
      match reads 0 with
      | some r => some (r, 1)
      | none =>
        match reads 1 with
        | some r => some (r, 2)
        | none =>
          match reads 2 with
          | some r => some (r, 3)
          | none =>
            match reads 3 with
            | some r => some (r, 4)
            | none => none := rfl

/-- `reportBranch` only fails on the invalid-`report` runtime type. -/
theorem reportBranch_none (report : ReportPolicy) (s me : Nat)
    (h : reportBranch report s me = none) : report = .other := by
  cases report with
  | int n => by_cases hn : n = 0 <;> simp [reportBranch, hn] at h
  | noneP => simp [reportBranch] at h
  | other => rfl

/-- `detectGo` (hence `detect`) never raises unless the report policy has
an invalid runtime type. -/
theorem detectGo_ok (rx : Regex) (report : ReportPolicy) (ctx : String)
    (bp : PollBuffers) (hrep : report ≠ .other) :
    ∃ res, detectGo rx report ctx bp = .ok res := by
  unfold detectGo
  simp only [ensure_context_get, Option.getD_some]
  cases hr : rsearch rx ((ensure_context bp ctx).capture.drop
      ((alGet bp.search_offsets ctx).getD 0)) with
  | none => exact ⟨_, rfl⟩
  | some p =>
    obtain ⟨ms, me⟩ := p
    show ∃ res, detectMatch report ctx (ensure_context bp ctx)
        ((alGet bp.search_offsets ctx).getD 0) ms me = .ok res
    unfold detectMatch
    cases hrb : reportBranch report
        ((alGet bp.search_offsets ctx).getD 0) me with
    | none => exact absurd (reportBranch_none _ _ _ hrb) hrep
    | some q => exact ⟨_, rfl⟩

/-! ## Claims -/

/-- C1: if a `detect` call with context `c` finds a match whose end is at
relative offset `me` of the region scanned from search offset `s`, then
after the call the stored search offset for `c` is `s + me` and the stored
previous search offset is `s`; the capture is unchanged, so a second
`detect` with the same context and pattern (no intervening growth) cannot
match the same occurrence again: any second match starts at or after the
absolute end `s + me`, and the stored offset stays at or beyond it. -/
theorem C1_no_double_match (regex : Regex) (report : ReportPolicy)
    (dc console : String) (bp bp' : PollBuffers) (md : MatchData)
    (c : String) (s : Nat)
    (hc : c = resolve_context dc console)
    (hs : s = (alGet bp.search_offsets c).getD 0)
    (h : detect regex report dc console bp = .ok (some md, bp')) :
    ∃ ms me, rsearch regex (bp.capture.drop s) = some (ms, me) ∧
      alGet bp'.search_offsets c = some (s + me) ∧
      alGet bp'.search_offsets_prev c = some s ∧
      bp'.capture = bp.capture ∧
      ∀ (md2 : MatchData) (bp'' : PollBuffers),
        detect regex report dc console bp' = .ok (some md2, bp'') →
          s + me ≤ md2.offset_match_start ∧
          s + me ≤ (alGet bp''.search_offsets c).getD 0 := by
  subst hc
  subst hs
  obtain ⟨ms, me, s', attach, hr, hrb, hmd, hcap, _, _, _, hoff, hoffp⟩ :=
    detect_ok_some regex report dc console bp bp' md h
  refine ⟨ms, me, hr, hoff, hoffp, hcap, ?_⟩
  intro md2 bp'' h2
  obtain ⟨ms2, me2, s2', attach2, hr2, hrb2, hmd2, _, _, _, _, hoff2, _⟩ :=
    detect_ok_some regex report dc console bp' bp'' md2 h2
  simp only [hoff, Option.getD_some] at hrb2 hoff2
  have hge := reportBranch_ge report _ me2 s2' attach2 hrb2
  constructor
  · rw [hmd2]
    exact le_trans hge (Nat.le_add_right _ _)
  · simp only [hoff2, Option.getD_some]
    exact Nat.le_add_right _ _

/-- C1 witness: double detect of `"a"` over the capture `"aba"`. -/
theorem C1_no_double_match_witness :
    ∃ ms me, rsearch c1_regex (c1_bp.capture.drop 0) = some (ms, me) ∧
      alGet c1_bp2.search_offsets console0 = some (0 + me) ∧
      alGet c1_bp2.search_offsets_prev console0 = some 0 ∧
      c1_bp2.capture = c1_bp.capture ∧
      ∀ (md2 : MatchData) (bp'' : PollBuffers),
        detect c1_regex .noneP "" console0 c1_bp2 = .ok (some md2, bp'') →
          0 + me ≤ md2.offset_match_start ∧
          0 + me ≤ (alGet bp''.search_offsets console0).getD 0 :=
  C1_no_double_match c1_regex .noneP "" console0 c1_bp c1_bp2 c1_md
    console0 0 (by decide) (by decide) rfl

/-- C4 (amended): for a successful `detect` whose report policy is `0` or
`None`, `offset_match_start`/`offset_match_end` are the absolute byte
offsets in the capture at which the matched text starts and ends (the
regex matches at that absolute start and the end is start plus the match
length). -/
theorem C4_absolute_match_offsets (regex : Regex) (report : ReportPolicy)
    (dc console : String) (bp bp' : PollBuffers) (md : MatchData) (s : Nat)
    (hreport : report = .int 0 ∨ report = .noneP)
    (hs : s = (alGet bp.search_offsets (resolve_context dc console)).getD 0)
    (h : detect regex report dc console bp = .ok (some md, bp')) :
    ∃ ms me, rsearch regex (bp.capture.drop s) = some (ms, me) ∧
      md.offset_match_start = s + ms ∧
      md.offset_match_end = s + me ∧
      matchesAt regex (bp.capture.drop md.offset_match_start) = true ∧
      md.offset_match_end = md.offset_match_start + regex.length := by
  subst hs
  obtain ⟨ms, me, s', attach, hr, hrb, hmd, _, _, _, _, _, _⟩ :=
    detect_ok_some regex report dc console bp bp' md h
  have hs' : s' =
      (alGet bp.search_offsets (resolve_context dc console)).getD 0 := by
    rcases hreport with hrep | hrep <;> subst hrep <;>
      simp only [reportBranch, if_pos, Option.some.injEq, Prod.mk.injEq,
                 reduceIte] at hrb <;> omega
  subst hmd
  obtain ⟨-, hlen, hmat, -⟩ :=
    rsearchAux_some regex
      (bp.capture.drop
        ((alGet bp.search_offsets (resolve_context dc console)).getD 0))
      0 ms me hr
  simp only [Nat.sub_zero, List.drop_drop] at hmat
  refine ⟨ms, me, hr, by rw [hs'], by rw [hs'], ?_, ?_⟩
  · simpa [hs'] using hmat
  · simp only [hs']
    omega

/-- C4 witness: Scenario A (capture `"boot\nlogin: "`, pattern
`"login:"`, report `None`). -/
theorem C4_absolute_match_offsets_witness :
    ∃ ms me, rsearch loginRegex (scenA_bp1.capture.drop 0) = some (ms, me) ∧
      scenA_md.offset_match_start = 0 + ms ∧
      scenA_md.offset_match_end = 0 + me ∧
      matchesAt loginRegex (scenA_bp1.capture.drop
        scenA_md.offset_match_start) = true ∧
      scenA_md.offset_match_end =
        scenA_md.offset_match_start + loginRegex.length :=
  C4_absolute_match_offsets loginRegex .noneP "" console0 scenA_bp1
    scenA_bp2 scenA_md 0 (Or.inr rfl) (by decide) rfl

/-- C4 counterexample: in Scenario A the match offsets are `(5, 11)`, not
the claimed `(6, 12)`; and with a positive integer report policy the
returned `offset_match_end` (95) is not the absolute match end (50). -/
theorem C4_absolute_match_offsets_counterexample :
    (scenA_md.offset_match_start, scenA_md.offset_match_end) = (5, 11) ∧
    ((5 : Nat), (11 : Nat)) ≠ ((6 : Nat), (12 : Nat)) ∧
    scenA_bp1.capture = utf8Encode "boot\nlogin: " ∧
    (bp50_detect.toOption.bind Prod.fst).map
        (fun md => md.offset_match_end) = some 95 ∧
    rsearch loginRegex bp50.capture = some (44, 50) ∧
    (95 : Nat) ≠ 50 := by decide

/-- C5: evaluation of `detect` at the failing input: a 50-byte capture
with the match at `[44, 50)` and `report = 5` attaches the accessor window
`(45, 95)` — its end is the rewound offset plus the relative match end,
not the absolute match end `50` — while the stored search cursor correctly
becomes `50`. -/
theorem C5_report_window_eval :
    (bp50_detect.toOption.bind Prod.fst) =
      some { offset := 45, offset_match_start := 89, offset_match_end := 95,
             console_output := some (45, 95) } ∧
    alGet ((bp50_detect.toOption.map Prod.snd).getD
        emptyBuffers).search_offsets console0 = some 50 ∧
    rsearch loginRegex bp50.capture = some (44, 50) ∧
    ((45 : Nat), (95 : Nat)) ≠ ((45 : Nat), (50 : Nat)) := by decide

/-- C6: `_poll_context_init` deletes any stale capture (fresh empty
capture with the handle open) and sets the initial `read_offset` to
`max(0, currentRemoteSize - lookbackWindow)`; a disabled console
(`size = none`) gives `read_offset = 0`. -/
theorem C6_initial_read_offset :
    ∀ (size : Option Nat) (lookback_max : Nat),
      ((poll_context_init size lookback_max).read_offset : Int) =
        max 0 ((size.getD 0 : Int) - (lookback_max : Int)) ∧
      (poll_context_init none lookback_max).read_offset = 0 ∧
      (poll_context_init size lookback_max).capture = [] ∧
      (poll_context_init size lookback_max).of_present = true ∧
      (poll_context_init size lookback_max).generation = none := by
  intro size lb
  refine ⟨?_, ?_, rfl, rfl, rfl⟩
  · cases size with
    | none =>
      simp only [poll_context_init, poll_context_init_offset,
                 Option.getD_none]
      split <;> omega
    | some n =>
      simp only [poll_context_init, poll_context_init_offset,
                 Option.getD_some]
      split <;> omega
  · simp only [poll_context_init, poll_context_init_offset]
    split <;> omega

/-- C10: `extension.write` raises before any data is sent when given
`bytes` — because it calls `data.encode('utf-8')` exactly when `data` is a
`bytes` instance and `bytes` has no `encode` method — while `str` data
reaches the transport unchanged and any other type fails the type
assertion. -/
theorem C10_write_rejects_bytes :
    ∀ (b : List Nat) (s : String),
      console_write (.bytes b) = .error .attributeError ∧
      pyEncodeUtf8 (.bytes b) = .error .attributeError ∧
      console_write (.str s) = .ok (.str s) ∧
      console_write .other = .error .assertionError :=
  fun _ _ => ⟨rfl, rfl, rfl, rfl⟩

/-- C2 (amended): a read returning a generation strictly greater than the
stored one makes `poll` re-read from offset 0, store that read's
generation and set `read_offset` from that read's returned offset; under a
transport that never returns an offset below the requested one, this is
the only way `read_offset` moves backward; and in Scenario B — where the
pattern was already matched before the reset — the post-reset `detect`
returns "no match".  (The local capture keeps pre-reset bytes, so a
context that had not yet matched them can still match after the reset; see
the counterexample.) -/
theorem C2_generation_reset :
    (∀ (bp : PollBuffers) (reads : Nat → Nat → Nat → Option ReadResult)
       (g used : Nat) (r r2 : ReadResult),
       bp.generation = some g →
       retryRead (fun k => reads k bp.read_offset max_size) =
         some (r, used) →
       g < r.gen →
       reads used 0 max_size = some r2 →
       poll_inner bp reads =
         .ok { bp with capture := bp.capture ++ r.data ++ r2.data,
                       generation := some r2.gen,
                       read_offset := r2.newOffset }) ∧
    (∀ (bp bp' : PollBuffers) (reads : Nat → Nat → Nat → Option ReadResult),
       (∀ k offset maxBytes r, reads k offset maxBytes = some r →
           offset ≤ r.newOffset) →
       poll_inner bp reads = .ok bp' →
       bp'.read_offset < bp.read_offset →
       ∃ g r used, bp.generation = some g ∧
         retryRead (fun k => reads k bp.read_offset max_size) =
           some (r, used) ∧ g < r.gen) ∧
    (scenB_bp3.read_offset = 5 ∧ scenB_bp3.generation = some 2 ∧
     scenB_detect.toOption = some (none, scenB_bp4)) := by
  refine ⟨?_, ?_, by decide⟩
  · intro bp reads g used r r2 hg hrr hgen hr2
    unfold poll_inner
    rw [hrr]
    simp only [hg, if_pos hgen, hr2]
  · intro bp bp' reads hmono hok hlt
    unfold poll_inner at hok
    cases hrr : retryRead (fun k => reads k bp.read_offset max_size) with
    | none => rw [hrr] at hok; exact absurd hok (by simp)
    | some p =>
      obtain ⟨r, used⟩ := p
      rw [hrr] at hok
      have hread := retryReadAux_some
        (fun k => reads k bp.read_offset max_size) 4 0 r used hrr
      have hmono1 : bp.read_offset ≤ r.newOffset :=
        hmono (used - 1) bp.read_offset max_size r hread.1
      cases hg : bp.generation with
      | none =>
        rw [hg] at hok
        simp only [Except.ok.injEq] at hok
        rw [← hok] at hlt
        simp only at hlt
        omega
      | some g =>
        rw [hg] at hok
        by_cases hgen : g < r.gen
        · exact ⟨g, r, used, rfl, rfl, hgen⟩
        · simp only [hgen, if_false, Except.ok.injEq] at hok
          rw [← hok] at hlt
          simp only at hlt
          omega

/-- C2 counterexample: a pattern that occurs only before the reset but was
never matched is still matched by a post-reset `detect` (pre-reset bytes
stay in the local capture): after polling generation 1 (`"login: "`) and
then generation 2 (`"x"`, which contains no `"login:"`), `detect` returns
a match, not "no match". -/
theorem C2_generation_reset_counterexample :
    c2x_bp1.generation = some 1 ∧ c2x_bp2.generation = some 2 ∧
    rsearch loginRegex (utf8Encode "x") = none ∧
    (c2x_detect.toOption.map Prod.fst).getD none =
      some { offset := 0, offset_match_start := 0, offset_match_end := 6,
             console_output := some (0, 6) } := by decide

/-- C2 witness: Scenario A's state polled against the generation-2
remote: the reset is detected, the stream is re-read from offset 0, the
new generation stored, and `read_offset` set from the second read. -/
theorem C2_generation_reset_witness :
    poll_inner scenA_bp2 (remote_reads scenB_remote) =
      .ok { scenA_bp2 with
              capture := scenA_bp2.capture ++ [] ++
                [98, 111, 111, 116, 10],
              generation := some 2,
              read_offset := 5 } :=
  C2_generation_reset.1 scenA_bp2 (remote_reads scenB_remote) 1 1
    { gen := 2, newOffset := 12, data := [] }
    { gen := 2, newOffset := 5, data := [98, 111, 111, 116, 10] }
    rfl rfl (by decide) rfl

/-- C3: within one `poll` call a transient `ReadTimeout` is retried up to
3 additional times (4 attempts); three timeouts followed by a success make
the call succeed, and if all four attempts time out the last error
propagates out of the call. -/
theorem C3_retry_budget (bp : PollBuffers)
    (reads : Nat → Nat → Nat → Option ReadResult) (g : Nat)
    (hg : bp.generation = some g)
    (h0 : reads 0 bp.read_offset max_size = none)
    (h1 : reads 1 bp.read_offset max_size = none)
    (h2 : reads 2 bp.read_offset max_size = none) :
    (∀ r : ReadResult, reads 3 bp.read_offset max_size = some r →
        ¬ g < r.gen →
        poll_inner bp reads =
          .ok { bp with capture := bp.capture ++ r.data,
                        read_offset := r.newOffset }) ∧
    (reads 3 bp.read_offset max_size = none →
        poll_inner bp reads = .error .readTimeout) := by
  constructor
  · intro r h3 hgen
    unfold poll_inner
    rw [retryRead_unfold]
    simp only [h0, h1, h2, h3, hg, if_neg hgen]
  · intro h3
    unfold poll_inner
    rw [retryRead_unfold]
    simp only [h0, h1, h2, h3]

/-- C3 witness: three timeouts then a success at the same generation. -/
theorem C3_retry_budget_witness :
    poll_inner c3_bp c3_reads =
      .ok { c3_bp with capture := c3_bp.capture ++ [7],
                       read_offset := 3 } :=
  (C3_retry_budget c3_bp c3_reads 1 rfl rfl rfl rfl).1
    { gen := 1, newOffset := 3, data := [7] } rfl (by decide)

/-- C7 (amended): a connection error increments the consecutive-failure
counter; the reader re-raises (restoring terminal flags first, when
given) exactly when the incremented counter reaches (is `≥`) the
configured maximum — with nine prior failures and the default maximum 10
the tenth error is already fatal — otherwise it sleeps the current
backoff, doubles it capped at the ceiling, and retries; a successful
iteration resets the counter; the thread function's default maximum
is 10. -/
theorem C7_failure_budget :
    (∀ (st : ConsoleReader) (fr : Bool),
      st.server_connection_errors_max ≤ st.server_connection_errors + 1 →
        console_reader_read st fr .connError = .fatal fr) ∧
    (∀ (st : ConsoleReader) (fr : Bool),
      st.server_connection_errors + 1 < st.server_connection_errors_max →
        console_reader_read st fr .connError =
          .retry { st with
                     server_connection_errors :=
                       st.server_connection_errors + 1,
                     backoff_wait :=
                       min st.backoff_wait_max (st.backoff_wait * 2) }
                 st.backoff_wait) ∧
    (∀ (st : ConsoleReader) (fr : Bool) (g no : Nat) (data : List Nat),
      0 < st.server_connection_errors →
        ∃ st' dl slept,
          console_reader_read st fr (.ok g no data) = .ok st' dl slept ∧
          st'.server_connection_errors = 0) ∧
    (∀ (offset : Nat) (bmax : ℚ),
      (console_reader_make offset bmax).server_connection_errors_max
        = 10) := by
  refine ⟨?_, ?_, ?_, fun _ _ => rfl⟩
  · intro st fr hge
    simp only [console_reader_read]
    rw [if_pos hge]
  · intro st fr hlt
    simp only [console_reader_read]
    rw [if_neg (by omega)]
    by_cases hb : st.backoff_wait_max ≤ st.backoff_wait * 2
    · rw [if_pos hb]
      simp [min_def, hb]
    · rw [if_neg hb]
      simp [min_def, hb]
  · intro st fr g no data hpos
    simp only [console_reader_read]
    refine ⟨_, _, _, rfl, ?_⟩
    repeat' split
    all_goals simp_all

/-- C7 counterexample: the code terminates when the counter reaches the
maximum, not when it exceeds it: with the default budget 10 and nine prior
consecutive failures, the next connection error is fatal even though the
incremented counter (10) does not exceed 10. -/
theorem C7_failure_budget_counterexample :
    console_reader_read c7_state true .connError = .fatal true ∧
    ¬ (c7_state.server_connection_errors + 1 >
        c7_state.server_connection_errors_max) := by
  exact ⟨rfl, by decide⟩

/-- C7 witness: the fatal, retry and counter-reset cases at concrete
reader states. -/
theorem C7_failure_budget_witness :
    console_reader_read c7_state true .connError = .fatal true ∧
    console_reader_read c7_retry true .connError =
      .retry { c7_retry with
                 server_connection_errors :=
                   c7_retry.server_connection_errors + 1,
                 backoff_wait :=
                   min c7_retry.backoff_wait_max
                       (c7_retry.backoff_wait * 2) }
             c7_retry.backoff_wait ∧
    (∃ st' dl slept,
      console_reader_read c7_retry true (.ok 1 4 [9]) = .ok st' dl slept ∧
      st'.server_connection_errors = 0) :=
  ⟨C7_failure_budget.1 c7_state true (by decide),
   C7_failure_budget.2.1 c7_retry true (by decide),
   C7_failure_budget.2.2.1 c7_retry true 1 4 [9] (by decide)⟩

/-- C8: a pattern that is not `str`, `bytes` or a compiled regex fails at
construction time; every other pattern kind is accepted, and with a valid
report policy `detect` always returns (it has no malformed-pattern error
path at all). -/
theorem C8_pattern_validation :
    (∀ (console : Option String) (previous_max : Nat) (dc : String)
       (report : ReportPolicy), previous_max ≠ 0 →
      expectationInit .other console previous_max dc report =
        .error "text_or_regex must be a string or compiled regex") ∧
    (∀ t : TextOrRegex, t ≠ .other → ∃ rx, regex_set t = .ok rx) ∧
    (∀ (rx : Regex) (report : ReportPolicy) (dc console : String)
       (bp : PollBuffers), report ≠ .other →
      ∃ res, detect rx report dc console bp = .ok res) := by
  refine ⟨?_, ?_, ?_⟩
  · intro console pm dc report hpm
    simp [expectationInit, hpm, regex_set]
  · intro t ht
    cases t with
    | str s => exact ⟨_, rfl⟩
    | bytes b => exact ⟨_, rfl⟩
    | compiledStr p => exact ⟨_, rfl⟩
    | compiledBytes p => exact ⟨_, rfl⟩
    | other => exact absurd rfl ht
  · intro rx report dc console bp hrep
    unfold detect
    by_cases hof : bp.of_present = false
    · rw [if_pos hof]; exact ⟨_, rfl⟩
    rw [if_neg hof]
    by_cases hlen : bp.capture.length = 0
    · rw [if_pos hlen]; exact ⟨_, rfl⟩
    rw [if_neg hlen]
    exact detectGo_ok rx report (resolve_context dc console) bp hrep

/-- C8 witness: a non-pattern input fails construction; a plain string is
accepted; `detect` returns normally with a valid report policy. -/
theorem C8_pattern_validation_witness :
    expectationInit .other none 4096 "" .noneP =
      .error "text_or_regex must be a string or compiled regex" ∧
    (∃ rx, regex_set (.str "x") = .ok rx) ∧
    (∃ res, detect [] .noneP "" console0 emptyBuffers = .ok res) :=
  ⟨C8_pattern_validation.1 none 4096 "" .noneP (by decide),
   C8_pattern_validation.2.1 (.str "x") (by decide),
   C8_pattern_validation.2.2 [] .noneP "" console0 emptyBuffers
     (by decide)⟩

/-- C9: a plain `str` pattern is UTF-8 encoded, escaped and compiled into
a sequence of literal byte tokens (a `bytes` pattern likewise, without the
encoding step), so `detect` searches for it as a literal byte substring:
the leftmost match is exactly the leftmost literal occurrence, and when
there is no literal occurrence there is no match. -/
theorem C9_literal_plain_patterns :
    (∀ s : String,
      regex_set (.str s) = .ok ((utf8Encode s).map RTok.lit)) ∧
    (∀ b : List Nat, regex_set (.bytes b) = .ok (b.map RTok.lit)) ∧
    (∀ (p buf : List Nat) (i j : Nat),
      rsearch (p.map RTok.lit) buf = some (i, j) →
        j = i + p.length ∧ (buf.drop i).take p.length = p ∧
        ∀ d, d < i → (buf.drop d).take p.length ≠ p) ∧
    (∀ p buf : List Nat, rsearch (p.map RTok.lit) buf = none →
        ∀ d, (buf.drop d).take p.length ≠ p) := by
  refine ⟨?_, ?_, ?_, ?_⟩
  · intro s
    simp [regex_set, parseRegex_reEscape]
  · intro b
    simp [regex_set, parseRegex_reEscape]
  · intro p buf i j h
    obtain ⟨-, hj, hmat, hmin⟩ :=
      rsearchAux_some (p.map RTok.lit) buf 0 i j h
    simp only [Nat.sub_zero] at hmat hmin
    refine ⟨by simpa using hj, (matchesAt_lit p _).mp hmat, ?_⟩
    intro d hd hocc
    have := hmin d (by omega)
    rw [(matchesAt_lit p _).mpr hocc] at this
    exact Bool.true_eq_false ▸ this ▸ rfl
  · intro p buf h d hocc
    have := rsearchAux_none (p.map RTok.lit) buf 0 h d
    rw [(matchesAt_lit p _).mpr hocc] at this
    exact Bool.true_eq_false ▸ this ▸ rfl

/-- C9 witness: the pattern `"a.b"` compiles to literal tokens (the dot
has no special meaning), and its leftmost literal occurrence in `"xa.b"`
is found at offset 1. -/
theorem C9_literal_plain_patterns_witness :
    regex_set (.str "a.b") = .ok ((utf8Encode "a.b").map RTok.lit) ∧
    (4 = 1 + ([97, 46, 98] : List Nat).length ∧
     (([120, 97, 46, 98] : List Nat).drop 1).take
        ([97, 46, 98] : List Nat).length = [97, 46, 98] ∧
     ∀ d, d < 1 →
       (([120, 97, 46, 98] : List Nat).drop d).take
          ([97, 46, 98] : List Nat).length ≠ [97, 46, 98]) :=
  ⟨C9_literal_plain_patterns.1 "a.b",
   C9_literal_plain_patterns.2.2.1 [97, 46, 98] [120, 97, 46, 98] 1 4
     (by decide)⟩

end TcfConsole
